import Mathlib

/-!
# kcov: the ptrace breakpoint engine (src/kc_ptrace.c)

A shallow embedding of `kc_ptrace.c`.  The tracer is a single thread that talks to the
traced family through `ptrace` and `waitpid`; the embedding makes that conversation explicit:

* `Tracer` holds the two static pids of the file and what the kernel holds of the traced
  family: the address space of every tracee, the text image of every address space, which
  tracees are in ptrace-stop, the register file of every tracee, and the list of the
  requests issued so far (oldest first);
* a request on the text or the registers of a tracee takes effect only while that tracee
  is in ptrace-stop; otherwise the kernel refuses it, and the C, which checks no result,
  goes on;
* everything `waitpid` answers is an input, a list of `WaitEvent`; a tracee is in
  ptrace-stop from the answer that reports its stop to the next PTRACE_CONT on it;
* `kc->addrs`, a hash table of `struct kc_addr`, is a list in iteration order, and a
  `struct kc_addr *` is an index into it.

Only the tracer writes to the text images.
-/

namespace Kcov

/-! ## Data model -/

/-- The register buffer `uint8_t regs[1024]`.  The C zeroes it and PTRACE_GETREGS writes
the registers at its head; a list stands for the words written, all that follows being
zero, so the zeroed buffer is the empty list. -/
abbrev Regs := List Nat

/-- The buffer after `memset (regs, 0, sizeof (regs))`. -/
def zero_regs : Regs := []

/-- One tracked address, `struct kc_addr`: the fields `kc_ptrace.c` touches. -/
structure kc_addr where
  addr : Nat
  saved_code : Nat
  hits : Nat
  deriving DecidableEq, Repr

/-- The adapter `struct kc_ptrace_arch` that `kc_ptrace_arch_get` hands out.  The C passes
the session handle `kc` to each function as well; an adapter is chosen per `e_machine` and
is a function of the remaining arguments.  `clear_breakpoint` may be a null pointer. -/
structure kc_ptrace_arch where
  get_pc : Regs → Nat
  setup_breakpoint : Nat → Nat → Nat
  clear_breakpoint : Option (Nat → Nat → Nat → Nat)
  adjust_pc_after_breakpoint : Regs → Regs

/-- The session handle `struct kc`: the machine type and the address table. -/
structure kc where
  e_machine : Nat
  addrs : List kc_addr

/-- The system calls the tracer issues, with their arguments (and, for PEEKTEXT, the word
returned). -/
inductive Request where
  | FORK (ret : Int)
  | TRACEME
  | ATTACH (pid : Int)
  | SETOPTIONS (pid : Int)
  | PEEKTEXT (pid : Int) (aligned : Nat) (ret : Nat)
  | POKETEXT (pid : Int) (aligned : Nat) (val : Nat)
  | GETREGS (pid : Int)
  | SETREGS (pid : Int) (regs : Regs)
  | CONT (pid : Int) (sig : Nat)
  | DETACH (pid : Int)
  deriving DecidableEq, Repr

/-- The tracer (`active_child`, `child`) and the traced family as the kernel holds it:
`space p` names the address space of the tracee `p` (threads share one, a forked process
has its own), `text s` is the text image of the address space `s`, `stopped p` tells
whether `p` is in ptrace-stop, `regs p` is the register file of `p`. -/
structure Tracer where
  active_child : Int
  child : Int
  space : Int → Int
  text : Int → Nat → Nat
  stopped : Int → Bool
  regs : Int → Regs
  calls : List Request

/-- One answer of `waitpid(-1, &status, __WALL)`: the return value, the status word (an
`int` the kernel keeps non-negative), and the register file of the reporting tracee.
`forked_from = some p` says that the reporting tracee is a process forked from `p` that
reports for the first time: its text image starts as a copy of the image of `p`. -/
structure WaitEvent where
  r : Int
  status : Nat
  regs : Regs
  forked_from : Option Int
  deriving DecidableEq, Repr

/-! ## Linux constants and wait-status decoding (system headers) -/

def SIGTRAP : Nat := 5

def PTRACE_EVENT_CLONE : Nat := 3

/-- What `peek_word` returns when PTRACE_PEEKTEXT fails: `ptrace` returns -1, which is
all ones as the `unsigned long` (8 bytes) of the return type. -/
def PEEK_ERROR : Nat := 0xffffffffffffffff

/-- The macro `WIFSTOPPED(status)`: `(status & 0xff) == 0x7f`. -/
def WIFSTOPPED (status : Nat) : Bool := status % 256 == 127

/-- The macro `WSTOPSIG(status)`: `(status & 0xff00) >> 8`. -/
def WSTOPSIG (status : Nat) : Nat := status / 256 % 256

/-- The macro `WIFEXITED(status)`: `(status & 0x7f) == 0`. -/
def WIFEXITED (status : Nat) : Bool := status % 128 == 0

/-- The macro `WIFSIGNALED(status)`: `((signed char) ((status & 0x7f) + 1) >> 1) > 0`; the
sum lies in 1..128, and 128 is negative as a signed char. -/
def WIFSIGNALED (status : Nat) : Bool :=
  let t := status % 128 + 1
  decide (t < 128) && decide (0 < t / 2)

/-! ## The requests -/

/-- Append one request to the record of issued requests. -/
def issue (w : Tracer) (q : Request) : Tracer :=
  { w with calls := w.calls ++ [q] }

/-- `peek_word`: PTRACE_PEEKTEXT on the active child at the aligned address, result
unchecked: the word of its text image when it is in ptrace-stop, -1 when the kernel
refuses.  `get_aligned` is declared in `utils.h`, outside the sources at hand, and is a
parameter. -/
def peek_word (get_aligned : Nat → Nat) (w : Tracer) (addr : Nat) : Nat × Tracer :=
  let aligned := get_aligned addr
  let ret :=
    if w.stopped w.active_child then w.text (w.space w.active_child) aligned else PEEK_ERROR
  (ret, issue w (.PEEKTEXT w.active_child aligned ret))

/-- `poke_word`: PTRACE_POKETEXT on the active child at the aligned address, result
unchecked: it writes the text image of the active child when that is in ptrace-stop and
nothing otherwise. -/
def poke_word (get_aligned : Nat → Nat) (w : Tracer) (addr val : Nat) : Tracer :=
  let aligned := get_aligned addr
  { w with
    text :=
      if w.stopped w.active_child then
        fun s x => if s = w.space w.active_child ∧ x = aligned then val else w.text s x
      else w.text
    calls := w.calls ++ [.POKETEXT w.active_child aligned val] }

/-- The pair `memset (regs, 0, sizeof (regs)); ptrace (PTRACE_GETREGS, active_child, 0,
&regs)`: the registers of the active child when it is in ptrace-stop, the zeroed buffer
when the kernel refuses. -/
def ptrace_getregs (w : Tracer) : Regs × Tracer :=
  (if w.stopped w.active_child then w.regs w.active_child else zero_regs,
    issue w (.GETREGS w.active_child))

/-- The call `ptrace (PTRACE_SETREGS, active_child, 0, &regs)`: it replaces the registers
of the active child when that is in ptrace-stop and nothing otherwise. -/
def ptrace_setregs (w : Tracer) (regs : Regs) : Tracer :=
  { w with
    regs :=
      if w.stopped w.active_child then
        fun p => if p = w.active_child then regs else w.regs p
      else w.regs
    calls := w.calls ++ [.SETREGS w.active_child regs] }

/-- The call `ptrace (PTRACE_CONT, active_child, 0, sig)`: the active child leaves
ptrace-stop (if it was not in it, the kernel refuses and it stays out of it). -/
def ptrace_cont (w : Tracer) (sig : Nat) : Tracer :=
  { w with
    stopped := fun p => if p = w.active_child then false else w.stopped p
    calls := w.calls ++ [.CONT w.active_child sig] }

/-- `ptrace_get_ip_before_trap`: fetch the registers of the active child and ask the
adapter for the program counter.  `arch` is what `kc_ptrace_arch_get (kc->e_machine)`
returned; the C dereferences it unchecked. -/
def ptrace_get_ip_before_trap (arch : kc_ptrace_arch) (w : Tracer) : Nat × Tracer :=
  let (regs, w1) := ptrace_getregs w
  (arch.get_pc regs, w1)

/-! ## Breakpoint manager -/

/-- The first loop of `ptrace_setup_breakpoints`: store what `peek_word` returns for every
address in `saved_code`. -/
def setup_pass1 (get_aligned : Nat → Nat) : Tracer → List kc_addr → Tracer × List kc_addr
  | w, [] => (w, [])
  | w, a :: rest =>
    let (v, w1) := peek_word get_aligned w a.addr
    let (w2, rest2) := setup_pass1 get_aligned w1 rest
    (w2, { a with saved_code := v } :: rest2)

/-- The second loop of `ptrace_setup_breakpoints`: read the word again and write the
adapter's breakpoint encoding of it. -/
def setup_pass2 (get_aligned : Nat → Nat) (arch : kc_ptrace_arch) :
    Tracer → List kc_addr → Tracer
  | w, [] => w
  | w, a :: rest =>
    let (cur_data, w1) := peek_word get_aligned w a.addr
    setup_pass2 get_aligned arch
      (poke_word get_aligned w1 a.addr (arch.setup_breakpoint a.addr cur_data)) rest

/-- `ptrace_setup_breakpoints`.  `arch` is the result of `kc_ptrace_arch_get`, `none` for
the null pointer; `error` (from `utils.h`) ends the program, which is `Except.error` with
the state reached. -/
def ptrace_setup_breakpoints (get_aligned : Nat → Nat) (arch : Option kc_ptrace_arch)
    (w : Tracer) (addrs : List kc_addr) : Except Tracer (Tracer × List kc_addr) :=
  match arch with
  | none => .error w
  | some arch =>
    let (w1, addrs1) := setup_pass1 get_aligned w addrs
    .ok (setup_pass2 get_aligned arch w1 addrs1, addrs1)

/-- Modelled from the spec: `kc_addr_register_hit` is defined outside `kc_ptrace.c`; the
spec has step (d) of eliminate "mark the address hit" with `hit` a "boolean or counter",
and `ptrace_detach` tests the field `hits` against zero: the hit counter goes up by one. -/
def kc_addr_register_hit (a : kc_addr) : kc_addr :=
  { a with hits := a.hits + 1 }

/-- `ptrace_eliminate_breakpoint` on the entry `a` (the C gets a pointer to it): fetch,
adjust and write back the registers of the active child, write the restore word, count
the hit.  No result of a request is checked. -/
def ptrace_eliminate_breakpoint (get_aligned : Nat → Nat) (arch : kc_ptrace_arch)
    (w : Tracer) (a : kc_addr) : Tracer × kc_addr :=
  let (regs, w1) := ptrace_getregs w
  let regs := arch.adjust_pc_after_breakpoint regs
  let w2 := ptrace_setregs w1 regs
  let (val, w3) :=
    match arch.clear_breakpoint with
    | none => (a.saved_code, w2)
    | some clear =>
      let (cur, w3) := peek_word get_aligned w2 a.addr
      (clear a.addr a.saved_code cur, w3)
  (poke_word get_aligned w3 a.addr val, kc_addr_register_hit a)

/-! ## Event loop -/

/-- The return codes of `do_ptrace_run`. -/
inductive PtCode where
  | PT_CODE_ERROR
  | PT_CODE_TRAP
  | PT_CODE_EXIT
  deriving DecidableEq, Repr

/-- What an answer of `waitpid` with `r ≠ -1` tells of the traced family: a process that
reports for the first time after a fork has a copy of its parent's text image; the
reporting tracee is in ptrace-stop exactly when the status is a stop; its registers are
those of the answer. -/
def report (w : Tracer) (ev : WaitEvent) : Tracer :=
  { w with
    text :=
      match ev.forked_from with
      | none => w.text
      | some p => fun s => if s = w.space ev.r then w.text (w.space p) else w.text s
    stopped := fun p => if p = ev.r then WIFSTOPPED ev.status else w.stopped p
    regs := fun p => if p = ev.r then ev.regs else w.regs p }

/-- The `while (1)` of `do_ptrace_run`, one iteration per answer of `waitpid`.  With no
answer left the tracer is blocked in `waitpid`: `none`. -/
def wait_loop : Tracer → List WaitEvent → Option (PtCode × Tracer × List WaitEvent)
  | _, [] => none
  | w, ev :: rest =>
    if ev.r = -1 then some (.PT_CODE_EXIT, w, rest)
    else
      let w1 : Tracer := { report w ev with active_child := ev.r }
      if WIFSTOPPED ev.status then
        let sig := WSTOPSIG ev.status
        if sig = SIGTRAP then some (.PT_CODE_TRAP, w1, rest)
        else
          let sig := if ev.status / 256 = PTRACE_EVENT_CLONE then 0 else sig
          wait_loop (ptrace_cont w1 sig) rest
      else if WIFSIGNALED ev.status || WIFEXITED ev.status then
        if w1.active_child = w1.child then some (.PT_CODE_EXIT, w1, rest)
        else wait_loop w1 rest
      else some (.PT_CODE_ERROR, w1, rest)

/-- `do_ptrace_run`: continue the stopped child, then wait. -/
def do_ptrace_run (w : Tracer) (evs : List WaitEvent) :
    Option (PtCode × Tracer × List WaitEvent) :=
  wait_loop (ptrace_cont w 0) evs

/-- Modelled from the spec: `kc_lookup_addr` is defined outside `kc_ptrace.c`; the spec has
the event loop "look it up in the Address Table", a mapping from address to entry.  The
result is the position of the entry with that address, `none` for the null pointer. -/
def kc_lookup_addr : List kc_addr → Nat → Option Nat
  | [], _ => none
  | a :: rest, pc => if a.addr = pc then some 0 else (kc_lookup_addr rest pc).map (· + 1)

/-- The PT_CODE_TRAP case of `ptrace_run_debugger`. -/
def handle_trap (get_aligned : Nat → Nat) (arch : kc_ptrace_arch)
    (w : Tracer) (addrs : List kc_addr) : Tracer × List kc_addr :=
  let (pc, w1) := ptrace_get_ip_before_trap arch w
  match kc_lookup_addr addrs pc with
  | none => (w1, addrs)
  | some i =>
    match addrs[i]? with
    | none => (w1, addrs)
    | some a =>
      let (w2, a2) := ptrace_eliminate_breakpoint get_aligned arch w1 a
      (w2, addrs.set i a2)

/-- The `while (1)` of `ptrace_run_debugger`, at most `fuel` rounds. -/
def ptrace_run_debugger_fuel (get_aligned : Nat → Nat) (arch : kc_ptrace_arch) :
    Nat → Tracer → List kc_addr → List WaitEvent →
      Option (PtCode × Tracer × List kc_addr × List WaitEvent)
  | 0, _, _, _ => none
  | fuel + 1, w, addrs, evs =>
    match do_ptrace_run w evs with
    | none => none
    | some (.PT_CODE_ERROR, w1, rest) => some (.PT_CODE_ERROR, w1, addrs, rest)
    | some (.PT_CODE_EXIT, w1, rest) => some (.PT_CODE_EXIT, w1, addrs, rest)
    | some (.PT_CODE_TRAP, w1, rest) =>
      let (w2, addrs2) := handle_trap get_aligned arch w1 addrs
      ptrace_run_debugger_fuel get_aligned arch fuel w2 addrs2 rest

/-- `ptrace_run_debugger`: every round but the last takes an answer of `waitpid`, so one
round more than there are answers is enough.  The result is the code that ended the loop,
the final state and table, and the answers not yet consumed; `none` when the tracer is
left blocked in `waitpid`. -/
def ptrace_run_debugger (get_aligned : Nat → Nat) (arch : kc_ptrace_arch)
    (w : Tracer) (addrs : List kc_addr) (evs : List WaitEvent) :
    Option (PtCode × Tracer × List kc_addr × List WaitEvent) :=
  ptrace_run_debugger_fuel get_aligned arch (evs.length + 1) w addrs evs

/-! ## Process controller and sessions -/

/-- What the system answers during `fork_child`. -/
structure Launch where
  access_ok : Bool
  fork_ret : Int
  who : Int
  status : Nat

/-- `fork_child`, returning the C return value.  With `fork_ret = 0` this is the child's
side, which comes back only when PTRACE_TRACEME or `execv` failed.  The answer of
`waitpid (child, &status, 0)` tells whether the child is in ptrace-stop. -/
def fork_child (w : Tracer) (l : Launch) : Int × Tracer :=
  if !l.access_ok then (-1, w)
  else
    let w1 : Tracer := { w with child := l.fork_ret, calls := w.calls ++ [.FORK l.fork_ret] }
    if l.fork_ret = 0 then (-1, issue w1 .TRACEME)
    else if l.fork_ret < 0 then (-1, w1)
    else if l.who < 0 then (-1, w1)
    else
      let w2 : Tracer :=
        { w1 with stopped := fun p => if p = w1.child then WIFSTOPPED l.status else w1.stopped p }
      if !WIFSTOPPED l.status then (-1, w2)
      else (w2.child, issue w2 (.SETOPTIONS w2.child))

/-- How a session function ends: `error` ended the program, the function returned, or the
tracer is left blocked in `waitpid`. -/
inductive Outcome where
  | aborted (w : Tracer) (addrs : List kc_addr)
  | returned (ret : Int) (w : Tracer) (addrs : List kc_addr)
  | blocked

/-- The common tail of `ptrace_run` and `ptrace_pid_run`: set up the breakpoints, run the
debugger, return 0.  Every function looks the adapter up again with `kc_ptrace_arch_get`;
the lookup is done once here. -/
def setup_and_run (get_aligned : Nat → Nat) (kc_ptrace_arch_get : Nat → Option kc_ptrace_arch)
    (w : Tracer) (k : kc) (evs : List WaitEvent) : Outcome :=
  match kc_ptrace_arch_get k.e_machine with
  | none =>
    match ptrace_setup_breakpoints get_aligned none w k.addrs with
    | .error w1 => .aborted w1 k.addrs
    | .ok (w1, addrs1) => .returned 0 w1 addrs1
  | some arch =>
    match ptrace_setup_breakpoints get_aligned (some arch) w k.addrs with
    | .error w1 => .aborted w1 k.addrs
    | .ok (w1, addrs1) =>
      match ptrace_run_debugger get_aligned arch w1 addrs1 evs with
      | none => .blocked
      | some (_, w2, addrs2, _) => .returned 0 w2 addrs2

/-- `ptrace_run`. -/
def ptrace_run (get_aligned : Nat → Nat) (kc_ptrace_arch_get : Nat → Option kc_ptrace_arch)
    (w : Tracer) (k : kc) (l : Launch) (evs : List WaitEvent) : Outcome :=
  let (r, w1) := fork_child w l
  let w2 : Tracer := { w1 with active_child := r }
  if r < 0 then .returned (-1) w2 k.addrs
  else setup_and_run get_aligned kc_ptrace_arch_get w2 k evs

/-- `ptrace_pid_run`; `errno` is what PTRACE_ATTACH left in `errno`.  After a successful
PTRACE_ATTACH the process is a tracee that has yet to stop: it is in ptrace-stop only
once `waitpid` has reported its stop, and the C does not wait before it goes on. -/
def ptrace_pid_run (get_aligned : Nat → Nat) (kc_ptrace_arch_get : Nat → Option kc_ptrace_arch)
    (w : Tracer) (k : kc) (pid : Int) (errno : Nat) (evs : List WaitEvent) : Outcome :=
  let w1 : Tracer := { w with active_child := pid, child := pid }
  let w2 : Tracer :=
    { w1 with
      stopped := fun p => if p = pid ∧ errno = 0 then false else w1.stopped p
      calls := w1.calls ++ [.ATTACH w1.active_child] }
  if errno ≠ 0 then .returned (-1) w2 k.addrs
  else
    let w3 := issue w2 (.SETOPTIONS w2.child)
    setup_and_run get_aligned kc_ptrace_arch_get w3 k evs

/-- The loop of `ptrace_detach`: eliminate every entry whose `hits` is zero. -/
def detach_loop (get_aligned : Nat → Nat) (arch : kc_ptrace_arch) :
    Tracer → List kc_addr → Tracer × List kc_addr
  | w, [] => (w, [])
  | w, a :: rest =>
    let (w1, a1) :=
      if a.hits = 0 then ptrace_eliminate_breakpoint get_aligned arch w a else (w, a)
    let (w2, rest2) := detach_loop get_aligned arch w1 rest
    (w2, a1 :: rest2)

/-- `ptrace_detach`; after PTRACE_DETACH the active child is not in ptrace-stop. -/
def ptrace_detach (get_aligned : Nat → Nat) (arch : kc_ptrace_arch)
    (w : Tracer) (addrs : List kc_addr) : Tracer × List kc_addr :=
  let (w1, addrs1) := detach_loop get_aligned arch w addrs
  ({ w1 with
      stopped := fun p => if p = w1.active_child then false else w1.stopped p
      calls := w1.calls ++ [.DETACH w1.active_child] }, addrs1)

/-- An attach session: `ptrace_pid_run`, then `ptrace_detach` once it has returned 0.
`none` when `ptrace_pid_run` did not return 0 or no adapter exists. -/
def attach_session (get_aligned : Nat → Nat) (kc_ptrace_arch_get : Nat → Option kc_ptrace_arch)
    (w : Tracer) (k : kc) (pid : Int) (errno : Nat) (evs : List WaitEvent) :
    Option (Tracer × List kc_addr) :=
  match ptrace_pid_run get_aligned kc_ptrace_arch_get w k pid errno evs,
      kc_ptrace_arch_get k.e_machine with
  | .returned 0 w1 addrs1, some arch => some (ptrace_detach get_aligned arch w1 addrs1)
  | _, _ => none

/-- A full cleanup: `ptrace_setup_breakpoints`, `ptrace_run_debugger`, then
`ptrace_detach`.  `none` when the event loop is left blocked in `waitpid`. -/
def full_cleanup (get_aligned : Nat → Nat) (arch : kc_ptrace_arch)
    (w : Tracer) (addrs : List kc_addr) (evs : List WaitEvent) :
    Option (Tracer × List kc_addr) :=
  match ptrace_setup_breakpoints get_aligned (some arch) w addrs with
  | .error _ => none
  | .ok (w1, addrs1) =>
    match ptrace_run_debugger get_aligned arch w1 addrs1 evs with
    | none => none
    | some (_, w2, addrs2, _) => some (ptrace_detach get_aligned arch w2 addrs2)

/-! ## Concrete instances and predicates used in the statements -/

/-- Modelled from the spec: `get_aligned` of `utils.h` for an 8-byte `long`; the spec has
memory accessed "at the machine's native word granularity". -/
def word_align (addr : Nat) : Nat := addr / 8 * 8

/-- Replace byte `off` of a word. -/
def put_byte (word off b : Nat) : Nat :=
  word - (word / 256 ^ off % 256) * 256 ^ off + b * 256 ^ off

/-- Byte `off` of a word. -/
def byte_of (word off : Nat) : Nat := word / 256 ^ off % 256

/-- Step the program counter (register 0, 64 bits) back over a one-byte trap
instruction. -/
def pc_back (regs : Regs) : Regs :=
  (regs.headD 0 + (2 ^ 64 - 1)) % 2 ^ 64 :: regs.tail

/-- An adapter with one-byte trap instructions (0xcc) and the default flat restore. -/
def flat_arch : kc_ptrace_arch :=
  { get_pc := fun regs => regs.headD 0 - 1
    setup_breakpoint := fun addr cur => put_byte cur (addr % 8) 0xcc
    clear_breakpoint := none
    adjust_pc_after_breakpoint := pc_back }

/-- The same adapter with a `clear_breakpoint` that puts back the one patched byte. -/
def merge_arch : kc_ptrace_arch :=
  { flat_arch with
    clear_breakpoint := some (fun addr old cur => put_byte cur (addr % 8) (byte_of old (addr % 8))) }

/-- A tracer whose root tracee, pid 42, is in ptrace-stop (as after `fork_child`), with
its program counter at 0xB0, every pid a process of its own and every text word
0x1122334455667788. -/
def idle : Tracer :=
  { active_child := 42
    child := 42
    space := fun p => p
    text := fun _ _ => 0x1122334455667788
    stopped := fun p => p == 42
    regs := fun p => if p = 42 then [0xB0] else []
    calls := [] }

/-- The state and table of an outcome, when it has them. -/
def Outcome.state : Outcome → Option (Tracer × List kc_addr)
  | .aborted w addrs => some (w, addrs)
  | .returned _ w addrs => some (w, addrs)
  | .blocked => none

/-- Whether the outcome is the end of the program through `error`. -/
def Outcome.isAborted : Outcome → Bool
  | .aborted _ _ => true
  | _ => false

/-- The value the session function returned, when it returned. -/
def Outcome.ret : Outcome → Option Int
  | .returned ret _ _ => some ret
  | _ => none

/-- The restore word `ptrace_eliminate_breakpoint` computes for the entry `a`. -/
def restore_word (get_aligned : Nat → Nat) (arch : kc_ptrace_arch) (w : Tracer)
    (a : kc_addr) : Nat :=
  match arch.clear_breakpoint with
  | none => a.saved_code
  | some clear => clear a.addr a.saved_code (peek_word get_aligned w a.addr).1

/-- Whether a request is a PTRACE_SETREGS. -/
def Request.isSetregs : Request → Bool
  | .SETREGS _ _ => true
  | _ => false

/-- Whether a request is a PTRACE_POKETEXT. -/
def Request.isPoke : Request → Bool
  | .POKETEXT _ _ _ => true
  | _ => false

/-- Whether a request writes or reads tracee text. -/
def Request.isText : Request → Bool
  | .PEEKTEXT _ _ _ => true
  | .POKETEXT _ _ _ => true
  | _ => false

/-- The root tracee reports its termination, by exit or by signal. -/
def root_terminated (child : Int) (ev : WaitEvent) : Bool :=
  ev.r == child && !WIFSTOPPED ev.status && (WIFSIGNALED ev.status || WIFEXITED ev.status)

/-- A status that is none of stopped, signaled, exited. -/
def unknown_status (ev : WaitEvent) : Bool :=
  !WIFSTOPPED ev.status && !(WIFSIGNALED ev.status || WIFEXITED ev.status)

/-- Whether an answer of `waitpid` makes the event loop return: `waitpid` failed, the root
tracee reported its termination, or the status is unknown. -/
def ends_loop (child : Int) (ev : WaitEvent) : Bool :=
  ev.r == -1 || root_terminated child ev || unknown_status ev

/-- Whether an answer of `waitpid` reports a breakpoint trap. -/
def is_trap (ev : WaitEvent) : Bool :=
  ev.r != -1 && WIFSTOPPED ev.status && WSTOPSIG ev.status == SIGTRAP

/-! ## Basic facts -/

theorem peek_word_fst (ga : Nat → Nat) (w : Tracer) (addr : Nat) :
    (peek_word ga w addr).1 =
      if w.stopped w.active_child then w.text (w.space w.active_child) (ga addr)
      else PEEK_ERROR := rfl

theorem eliminate_entry (ga : Nat → Nat) (arch : kc_ptrace_arch) (w : Tracer) (a : kc_addr) :
    (ptrace_eliminate_breakpoint ga arch w a).2 = kc_addr_register_hit a := by
  unfold ptrace_eliminate_breakpoint
  cases arch.clear_breakpoint <;> rfl

theorem eliminate_text (ga : Nat → Nat) (arch : kc_ptrace_arch) (w : Tracer) (a : kc_addr) :
    (ptrace_eliminate_breakpoint ga arch w a).1.text =
      if w.stopped w.active_child then
        fun s x => if s = w.space w.active_child ∧ x = ga a.addr then restore_word ga arch w a
          else w.text s x
      else w.text := by
  unfold ptrace_eliminate_breakpoint restore_word
  cases arch.clear_breakpoint <;> rfl

theorem eliminate_regs (ga : Nat → Nat) (arch : kc_ptrace_arch) (w : Tracer) (a : kc_addr) :
    (ptrace_eliminate_breakpoint ga arch w a).1.regs =
      if w.stopped w.active_child then
        fun p => if p = w.active_child then
          arch.adjust_pc_after_breakpoint (w.regs w.active_child) else w.regs p
      else w.regs := by
  unfold ptrace_eliminate_breakpoint
  by_cases h : w.stopped w.active_child = true <;>
    cases arch.clear_breakpoint <;>
      simp [ptrace_getregs, ptrace_setregs, peek_word, poke_word, issue, h]

theorem eliminate_child (ga : Nat → Nat) (arch : kc_ptrace_arch) (w : Tracer) (a : kc_addr) :
    (ptrace_eliminate_breakpoint ga arch w a).1.child = w.child := by
  unfold ptrace_eliminate_breakpoint
  cases arch.clear_breakpoint <;> rfl

theorem eliminate_calls (ga : Nat → Nat) (arch : kc_ptrace_arch) (w : Tracer) (a : kc_addr) :
    (ptrace_eliminate_breakpoint ga arch w a).1.calls =
      w.calls ++ [.GETREGS w.active_child,
        .SETREGS w.active_child (arch.adjust_pc_after_breakpoint (ptrace_getregs w).1)] ++
      (match arch.clear_breakpoint with
        | none => []
        | some _ => [.PEEKTEXT w.active_child (ga a.addr) (peek_word ga w a.addr).1]) ++
      [.POKETEXT w.active_child (ga a.addr) (restore_word ga arch w a)] := by
  unfold ptrace_eliminate_breakpoint restore_word
  cases arch.clear_breakpoint <;>
    simp [ptrace_getregs, ptrace_setregs, peek_word, poke_word, issue]

/-! ## Tables -/

theorem map_set_same {β : Type} (f : kc_addr → β) :
    ∀ (t : List kc_addr) (i : Nat) (a b : kc_addr), t[i]? = some a → f b = f a →
      (t.set i b).map f = t.map f
  | [], _, _, _, h, _ => by simp at h
  | x :: t, 0, a, b, h, hf => by
    simp at h
    subst h
    simp [hf]
  | x :: t, i + 1, a, b, h, hf => by
    simp at h
    simp [map_set_same f t i a b h hf]

theorem forall2_set {α : Type} (R : α → kc_addr → Prop) :
    ∀ (l : List α) (t : List kc_addr) (i : Nat) (a b : kc_addr), List.Forall₂ R l t →
      t[i]? = some a → (∀ x, R x a → R x b) → List.Forall₂ R l (t.set i b)
  | _, _, _, _, _, .nil, h, _ => by simp at h
  | _, _, 0, a, b, .cons hx ht, h, hR => by
    simp at h
    subst h
    exact .cons (hR _ hx) ht
  | _, _, i + 1, a, b, .cons hx ht, h, hR => by
    simp at h
    exact .cons hx (forall2_set R _ _ i a b ht h hR)

theorem forall2_map_self {α : Type} (R : α → α → Prop) (f : α → α) (h : ∀ a, R a (f a)) :
    ∀ l : List α, List.Forall₂ R l (l.map f)
  | [] => .nil
  | a :: l => .cons (h a) (forall2_map_self R f h l)

/-! ## Setup -/

theorem setup_pass1_table (ga : Nat → Nat) :
    ∀ (t : List kc_addr) (w : Tracer),
      (setup_pass1 ga w t).2 =
        t.map (fun a => { a with saved_code := (peek_word ga w a.addr).1 })
  | [], _ => rfl
  | a :: t, w => by
    simp only [setup_pass1, List.map_cons]
    rw [setup_pass1_table ga t]
    rfl

theorem wait_loop_frame :
    ∀ (evs : List WaitEvent) (w : Tracer) (c : PtCode) (w1 : Tracer) (rest : List WaitEvent),
      wait_loop w evs = some (c, w1, rest) →
        w1.child = w.child ∧ rest.length < evs.length
  | [], _, _, _, _, h => by simp [wait_loop] at h
  | ev :: evs, w, c, w1, rest, h => by
    simp only [wait_loop] at h
    split at h
    · simp at h
      obtain ⟨-, rfl, rfl⟩ := h
      simp
    · split at h
      · split at h
        · simp at h
          obtain ⟨-, rfl, rfl⟩ := h
          simp [report]
        · have ih := wait_loop_frame evs _ c w1 rest h
          simp [ptrace_cont, report] at ih
          exact ⟨ih.1, by simp; omega⟩
      · split at h
        · split at h
          · simp at h
            obtain ⟨-, rfl, rfl⟩ := h
            simp [report]
          · have ih := wait_loop_frame evs _ c w1 rest h
            simp [report] at ih
            exact ⟨ih.1, by simp; omega⟩
        · simp at h
          obtain ⟨-, rfl, rfl⟩ := h
          simp [report]

theorem do_ptrace_run_frame (w : Tracer) (evs : List WaitEvent) (c : PtCode) (w1 : Tracer)
    (rest : List WaitEvent) (h : do_ptrace_run w evs = some (c, w1, rest)) :
    w1.child = w.child ∧ rest.length < evs.length := by
  have := wait_loop_frame evs _ c w1 rest h
  simpa [ptrace_cont] using this

/-- An invariant of the table that every elimination of a table entry keeps is kept by
the trap case. -/
theorem handle_trap_invariant (ga : Nat → Nat) (arch : kc_ptrace_arch)
    (I : List kc_addr → Prop)
    (hI : ∀ (t : List kc_addr) (i : Nat) (a : kc_addr), t[i]? = some a →
      I t → I (t.set i (kc_addr_register_hit a)))
    (w : Tracer) (t : List kc_addr) (h : I t) : I (handle_trap ga arch w t).2 := by
  unfold handle_trap
  simp only [ptrace_get_ip_before_trap]
  split
  next => exact h
  next i _ =>
    split
    next => exact h
    next a ha =>
      have := hI t i a ha h
      rw [← eliminate_entry ga arch (ptrace_getregs w).2 a] at this
      exact this

theorem handle_trap_child (ga : Nat → Nat) (arch : kc_ptrace_arch) (w : Tracer)
    (t : List kc_addr) : (handle_trap ga arch w t).1.child = w.child := by
  unfold handle_trap
  simp only [ptrace_get_ip_before_trap]
  split
  · rfl
  · split
    · rfl
    · simp [eliminate_child, ptrace_getregs, issue]

/-- The invariant rule for the debugger loop. -/
theorem run_debugger_fuel_invariant (ga : Nat → Nat) (arch : kc_ptrace_arch)
    (I : List kc_addr → Prop)
    (hI : ∀ (t : List kc_addr) (i : Nat) (a : kc_addr), t[i]? = some a →
      I t → I (t.set i (kc_addr_register_hit a))) :
    ∀ (fuel : Nat) (w : Tracer) (t : List kc_addr) (evs : List WaitEvent)
      (r : PtCode × Tracer × List kc_addr × List WaitEvent),
      ptrace_run_debugger_fuel ga arch fuel w t evs = some r → I t → I r.2.2.1
  | 0, _, _, _, _, h, _ => by simp [ptrace_run_debugger_fuel] at h
  | fuel + 1, w, t, evs, r, h, hw => by
    simp only [ptrace_run_debugger_fuel] at h
    split at h
    · simp at h
    · simp at h
      subst h
      exact hw
    · simp at h
      subst h
      exact hw
    · exact run_debugger_fuel_invariant ga arch I hI fuel _ _ _ r h
        (handle_trap_invariant ga arch I hI _ t hw)

theorem run_debugger_invariant (ga : Nat → Nat) (arch : kc_ptrace_arch)
    (I : List kc_addr → Prop)
    (hI : ∀ (t : List kc_addr) (i : Nat) (a : kc_addr), t[i]? = some a →
      I t → I (t.set i (kc_addr_register_hit a)))
    (w : Tracer) (t : List kc_addr) (evs : List WaitEvent)
    (r : PtCode × Tracer × List kc_addr × List WaitEvent)
    (h : ptrace_run_debugger ga arch w t evs = some r) (hw : I t) : I r.2.2.1 :=
  run_debugger_fuel_invariant ga arch I hI _ w t evs r h hw

/-! ## Detach -/

theorem detach_loop_table (ga : Nat → Nat) (arch : kc_ptrace_arch) :
    ∀ (t : List kc_addr) (w : Tracer),
      (detach_loop ga arch w t).2 =
        t.map (fun a => if a.hits = 0 then kc_addr_register_hit a else a)
  | [], _ => rfl
  | a :: t, w => by
    simp only [detach_loop, List.map_cons]
    rw [detach_loop_table ga arch t]
    by_cases h : a.hits = 0
    · simp [h, eliminate_entry]
    · simp [h]

theorem detach_table (ga : Nat → Nat) (arch : kc_ptrace_arch) (w : Tracer)
    (t : List kc_addr) :
    (ptrace_detach ga arch w t).2 =
      t.map (fun a => if a.hits = 0 then kc_addr_register_hit a else a) := by
  simp [ptrace_detach, detach_loop_table]

/-! ## Event loop: when it returns -/

theorem ends_loop_failed (child : Int) (ev : WaitEvent) (hr : ev.r = -1) :
    ends_loop child ev = true := by
  simp [ends_loop, root_terminated, unknown_status, hr]

theorem ends_loop_stopped (child : Int) (ev : WaitEvent) (hr : ¬ev.r = -1)
    (hs : WIFSTOPPED ev.status = true) : ends_loop child ev = false := by
  simp [ends_loop, root_terminated, unknown_status, hr, hs]

theorem ends_loop_root (child : Int) (ev : WaitEvent)
    (hs : ¬WIFSTOPPED ev.status = true) (hc : ev.r = child) : ends_loop child ev = true := by
  simp at hs
  simp only [ends_loop, root_terminated, unknown_status, hs, hc]
  cases WIFSIGNALED ev.status <;> cases WIFEXITED ev.status <;> simp

theorem ends_loop_other (child : Int) (ev : WaitEvent) (hr : ¬ev.r = -1)
    (hx : (WIFSIGNALED ev.status || WIFEXITED ev.status) = true) (hc : ¬ev.r = child) :
    ends_loop child ev = false := by
  simp [ends_loop, root_terminated, unknown_status, hr, hx, hc]

theorem ends_loop_unknown (child : Int) (ev : WaitEvent)
    (hs : ¬WIFSTOPPED ev.status = true)
    (hx : ¬(WIFSIGNALED ev.status || WIFEXITED ev.status) = true) :
    ends_loop child ev = true := by
  simp at hs
  rw [Bool.not_eq_true] at hx
  simp [ends_loop, root_terminated, unknown_status, hs, hx]

theorem wait_loop_none :
    ∀ (evs : List WaitEvent) (w : Tracer), wait_loop w evs = none →
      evs.any (ends_loop w.child) = false
  | [], _, _ => rfl
  | ev :: evs, w, h => by
    simp only [wait_loop] at h
    rw [List.any_cons]
    split at h
    · simp at h
    · rename_i hr
      split at h
      · rename_i hs
        split at h
        · simp at h
        · have ih := wait_loop_none evs _ h
          rw [ends_loop_stopped w.child ev hr hs]
          exact ih
      · rename_i hs
        split at h
        · rename_i hx
          split at h
          · simp at h
          · rename_i hc
            have ih := wait_loop_none evs _ h
            rw [ends_loop_other w.child ev hr hx hc]
            exact ih
        · simp at h

theorem wait_loop_some :
    ∀ (evs : List WaitEvent) (w : Tracer) (c : PtCode) (w1 : Tracer) (rest : List WaitEvent),
      wait_loop w evs = some (c, w1, rest) →
        (c = .PT_CODE_TRAP ∧ evs.any (ends_loop w.child) = rest.any (ends_loop w.child)) ∨
        (c ≠ .PT_CODE_TRAP ∧ evs.any (ends_loop w.child) = true)
  | [], _, _, _, _, h => by simp [wait_loop] at h
  | ev :: evs, w, c, w1, rest, h => by
    simp only [wait_loop] at h
    rw [List.any_cons]
    split at h
    · rename_i hr
      simp at h
      obtain ⟨rfl, -, -⟩ := h
      right
      simp [ends_loop_failed w.child ev hr]
    · rename_i hr
      split at h
      · rename_i hs
        rw [ends_loop_stopped w.child ev hr hs]
        split at h
        · simp at h
          obtain ⟨rfl, -, rfl⟩ := h
          left
          simp
        · have ih := wait_loop_some evs _ c w1 rest h
          exact ih
      · rename_i hs
        split at h
        · rename_i hx
          split at h
          · rename_i hc
            simp at h
            obtain ⟨rfl, -, -⟩ := h
            right
            simp [ends_loop_root w.child ev hs hc]
          · rename_i hc
            rw [ends_loop_other w.child ev hr hx hc]
            have ih := wait_loop_some evs _ c w1 rest h
            exact ih
        · rename_i hx
          simp at h
          obtain ⟨rfl, -, -⟩ := h
          right
          simp [ends_loop_unknown w.child ev hs hx]

theorem run_debugger_fuel_isSome (ga : Nat → Nat) (arch : kc_ptrace_arch) :
    ∀ (fuel : Nat) (w : Tracer) (t : List kc_addr) (evs : List WaitEvent),
      evs.length < fuel →
        (ptrace_run_debugger_fuel ga arch fuel w t evs).isSome = evs.any (ends_loop w.child)
  | 0, _, _, _, h => by omega
  | fuel + 1, w, t, evs, hlen => by
    simp only [ptrace_run_debugger_fuel]
    split
    · rename_i hd
      have := wait_loop_none evs _ hd
      simp [ptrace_cont] at this
      simpa using this
    · rename_i w1 rest hd
      have := wait_loop_some evs _ _ w1 rest hd
      simp [ptrace_cont] at this
      simpa using this
    · rename_i w1 rest hd
      have := wait_loop_some evs _ _ w1 rest hd
      simp [ptrace_cont] at this
      simpa using this
    · rename_i w1 rest hd
      have h1 := wait_loop_some evs _ _ w1 rest hd
      have h2 := do_ptrace_run_frame w evs _ w1 rest hd
      simp [ptrace_cont] at h1
      rw [run_debugger_fuel_isSome ga arch fuel _ _ rest (by omega), handle_trap_child,
        h2.1]
      simpa using h1.symm

theorem run_debugger_isSome (ga : Nat → Nat) (arch : kc_ptrace_arch) (w : Tracer)
    (t : List kc_addr) (evs : List WaitEvent) :
    (ptrace_run_debugger ga arch w t evs).isSome = evs.any (ends_loop w.child) :=
  run_debugger_fuel_isSome ga arch _ w t evs (Nat.lt_succ_self _)

/-! ## Event loop: the active child when the loop returns -/

theorem wait_loop_traps :
    ∀ (evs : List WaitEvent) (w : Tracer) (c : PtCode) (w1 : Tracer) (rest : List WaitEvent),
      wait_loop w evs = some (c, w1, rest) →
        w1.calls.countP Request.isSetregs = w.calls.countP Request.isSetregs ∧
        rest.countP is_trap + (if c = .PT_CODE_TRAP then 1 else 0) = evs.countP is_trap
  | [], _, _, _, _, h => by simp [wait_loop] at h
  | ev :: evs, w, c, w1, rest, h => by
    simp only [wait_loop] at h
    rw [List.countP_cons]
    split at h
    · rename_i hr
      simp at h
      obtain ⟨rfl, rfl, rfl⟩ := h
      simp [is_trap, hr]
    · rename_i hr
      split at h
      · rename_i hs
        split at h
        · rename_i ht
          simp at h
          obtain ⟨rfl, rfl, rfl⟩ := h
          simp [is_trap, hr, hs, ht, report]
        · rename_i ht
          have ih := wait_loop_traps evs _ c w1 rest h
          simp [ptrace_cont, report, Request.isSetregs] at ih
          simp [is_trap, hr, hs, ht]
          exact ih
      · rename_i hs
        have hn : is_trap ev = false := by
          simp at hs
          simp [is_trap, hs]
        rw [hn]
        split at h
        · split at h
          · simp at h
            obtain ⟨rfl, rfl, rfl⟩ := h
            simp [report]
          · have ih := wait_loop_traps evs _ c w1 rest h
            simpa [report] using ih
        · simp at h
          obtain ⟨rfl, rfl, rfl⟩ := h
          simp [report]

theorem handle_trap_setregs (ga : Nat → Nat) (arch : kc_ptrace_arch) (w : Tracer)
    (t : List kc_addr) :
    (handle_trap ga arch w t).1.calls.countP Request.isSetregs ≤
      w.calls.countP Request.isSetregs + 1 := by
  unfold handle_trap
  simp only [ptrace_get_ip_before_trap]
  split
  · simp [ptrace_getregs, issue, Request.isSetregs]
  · split
    · simp [ptrace_getregs, issue, Request.isSetregs]
    · simp only [eliminate_calls, ptrace_getregs, issue, List.countP_append]
      cases arch.clear_breakpoint <;> simp [Request.isSetregs]

/-- The debugger loop issues at most one PTRACE_SETREGS, that is, runs at most one
elimination, for each trap it takes from the answers of `waitpid`. -/
theorem run_debugger_fuel_setregs (ga : Nat → Nat) (arch : kc_ptrace_arch) :
    ∀ (fuel : Nat) (w : Tracer) (t : List kc_addr) (evs : List WaitEvent)
      (r : PtCode × Tracer × List kc_addr × List WaitEvent),
      ptrace_run_debugger_fuel ga arch fuel w t evs = some r →
        r.2.1.calls.countP Request.isSetregs + r.2.2.2.countP is_trap ≤
          w.calls.countP Request.isSetregs + evs.countP is_trap
  | 0, _, _, _, _, h => by simp [ptrace_run_debugger_fuel] at h
  | fuel + 1, w, t, evs, r, h => by
    simp only [ptrace_run_debugger_fuel] at h
    split at h
    · simp at h
    · rename_i w1 rest hd
      simp at h
      subst h
      have := wait_loop_traps evs _ _ w1 rest hd
      simp [ptrace_cont, Request.isSetregs] at this
      simp only
      omega
    · rename_i w1 rest hd
      simp at h
      subst h
      have := wait_loop_traps evs _ _ w1 rest hd
      simp [ptrace_cont, Request.isSetregs] at this
      simp only
      omega
    · rename_i w1 rest hd
      have h1 := wait_loop_traps evs _ _ w1 rest hd
      simp [ptrace_cont, Request.isSetregs] at h1
      have h2 := handle_trap_setregs ga arch w1 t
      have h3 := run_debugger_fuel_setregs ga arch fuel _ _ rest r h
      omega

/-! ## Detach: registers, requests and text -/

theorem detach_loop_setregs (ga : Nat → Nat) (arch : kc_ptrace_arch) :
    ∀ (t : List kc_addr) (w : Tracer),
      (detach_loop ga arch w t).1.calls.countP Request.isSetregs =
        w.calls.countP Request.isSetregs + t.countP (fun a => a.hits == 0)
  | [], w => by simp [detach_loop]
  | a :: t, w => by
    simp only [detach_loop]
    rw [detach_loop_setregs ga arch t]
    by_cases h : a.hits = 0
    · simp only [h, if_true, eliminate_calls, List.countP_cons, List.countP_append]
      cases arch.clear_breakpoint <;> simp [Request.isSetregs] <;> omega
    · simp [h, List.countP_cons]

/-- With the active child in ptrace-stop, `ptrace_setup_breakpoints` stores the text word
of before setup in every `saved_code`; whatever it stored, `ptrace_eliminate_breakpoint`,
the debugger loop and `ptrace_detach` leave every address and `saved_code` as they are. -/
theorem saved_code_kept (ga : Nat → Nat) (arch : kc_ptrace_arch) (w : Tracer)
    (addrs : List kc_addr) :
    (w.stopped w.active_child = true →
      ∃ w1, ptrace_setup_breakpoints ga (some arch) w addrs =
        .ok (w1, addrs.map (fun a =>
          { a with saved_code := w.text (w.space w.active_child) (ga a.addr) }))) ∧
    (∀ (v : Tracer) (a : kc_addr),
      (ptrace_eliminate_breakpoint ga arch v a).2.addr = a.addr ∧
      (ptrace_eliminate_breakpoint ga arch v a).2.saved_code = a.saved_code) ∧
    (∀ (v : Tracer) (t : List kc_addr) (evs : List WaitEvent)
      (r : PtCode × Tracer × List kc_addr × List WaitEvent),
      ptrace_run_debugger ga arch v t evs = some r →
        r.2.2.1.map (fun a => (a.addr, a.saved_code)) =
          t.map (fun a => (a.addr, a.saved_code))) ∧
    (∀ (v : Tracer) (t : List kc_addr),
      (ptrace_detach ga arch v t).2.map (fun a => (a.addr, a.saved_code)) =
        t.map (fun a => (a.addr, a.saved_code))) := by
  refine ⟨?_, ?_, ?_, ?_⟩
  · intro hs
    refine ⟨setup_pass2 ga arch (setup_pass1 ga w addrs).1 (setup_pass1 ga w addrs).2, ?_⟩
    simp only [ptrace_setup_breakpoints]
    rw [setup_pass1_table]
    simp [peek_word_fst, hs]
  · intro v a
    rw [eliminate_entry]
    exact ⟨rfl, rfl⟩
  · intro v t evs r h
    exact run_debugger_invariant ga arch
      (fun t2 => t2.map (fun a => (a.addr, a.saved_code)) =
        t.map (fun a => (a.addr, a.saved_code)))
      (fun t2 i a hi ht => by
        rw [← ht]
        exact map_set_same _ t2 i a _ hi rfl)
      v t evs r h rfl
  · intro v t
    rw [detach_table, List.map_map]
    apply List.map_congr_left
    intro a _
    by_cases h : a.hits = 0 <;> simp [h, kc_addr_register_hit]

/-- The forwarding step of `do_ptrace_run`: a stop whose signal is not SIGTRAP and whose
`status >> 8` is not PTRACE_EVENT_CLONE resumes the reporting tracee with that signal and
the loop goes on. -/
theorem wait_loop_forward (w : Tracer) (ev : WaitEvent) (evs : List WaitEvent)
    (hr : ev.r ≠ -1) (hs : WIFSTOPPED ev.status = true) (ht : WSTOPSIG ev.status ≠ SIGTRAP)
    (hc : ev.status / 256 ≠ PTRACE_EVENT_CLONE) :
    wait_loop w (ev :: evs) =
      wait_loop (ptrace_cont { report w ev with active_child := ev.r } (WSTOPSIG ev.status))
        evs := by
  simp [wait_loop, hr, hs, ht, hc]

/-! ## The claims -/

/-- C1 at two sessions that start with the root tracee, pid 42, in ptrace-stop and the
address 0xA0 tracked and unhit, with the flat restore.  In the first no trap occurs and
`waitpid` fails: `ptrace_detach` issues its PTRACE_POKETEXT on a tracee that the loop has
continued, the kernel refuses it, and the text word at 0xA0 keeps the trap byte 0xcc.  In
the second a process forked from the root, pid 43, traps at 0xA0: the word is restored in
the text of 43 only, the entry is marked hit, `ptrace_detach` skips it, and the text of
the root keeps the trap byte. -/
theorem C1_cleanup_leaves_trap :
    (full_cleanup word_align flat_arch idle [⟨0xA0, 0, 0⟩] [⟨-1, 0, [], none⟩]).map
        (fun r => (r.1.text 42 (word_align 0xA0), r.2, r.1.calls.filter Request.isPoke)) =
      some (0x11223344556677cc, [⟨0xA0, 0x1122334455667788, 1⟩],
        [.POKETEXT 42 0xA0 0x11223344556677cc, .POKETEXT 42 0xA0 0x1122334455667788]) ∧
    (full_cleanup word_align flat_arch idle [⟨0xA0, 0, 0⟩]
        [⟨43, 0x057f, [0xA1], some 42⟩, ⟨-1, 0, [], none⟩]).map
        (fun r => (r.1.text 42 (word_align 0xA0), r.1.text 43 (word_align 0xA0), r.2,
          r.1.calls.filter Request.isPoke)) =
      some (0x11223344556677cc, 0x1122334455667788, [⟨0xA0, 0x1122334455667788, 1⟩],
        [.POKETEXT 42 0xA0 0x11223344556677cc, .POKETEXT 43 0xA0 0x1122334455667788]) ∧
    idle.text 42 (word_align 0xA0) = 0x1122334455667788 := by
  decide

/-- C2 at an attach session on pid 42 with the tracked address 0xA0:
`ptrace_setup_breakpoints` runs right after PTRACE_ATTACH, before any `waitpid` has
reported the stop of the tracee, PTRACE_PEEKTEXT is refused, and `saved_code` is the -1
that `ptrace` returned, not the text word 0x1122334455667788.  The launch session on the
same table, where `fork_child` waits for the child's stop first, stores the text word. -/
theorem C2_attach_capture_fails :
    (ptrace_pid_run word_align (fun _ => some flat_arch) idle ⟨62, [⟨0xA0, 0, 0⟩]⟩ 42 0
        [⟨-1, 0, [], none⟩]).state.map
        (fun s => (s.2, s.1.text 42 (word_align 0xA0), s.1.calls.take 3)) =
      some ([⟨0xA0, 0xffffffffffffffff, 0⟩], 0x1122334455667788,
        [.ATTACH 42, .SETOPTIONS 42, .PEEKTEXT 42 0xA0 0xffffffffffffffff]) ∧
    (ptrace_run word_align (fun _ => some flat_arch) idle ⟨62, [⟨0xA0, 0, 0⟩]⟩
        ⟨true, 42, 42, 0x057f⟩ [⟨-1, 0, [], none⟩]).state.map (fun s => s.2) =
      some [⟨0xA0, 0x1122334455667788, 0⟩] := by
  decide

/-- C3 at Scenario B: attach to pid 42 with the tracked set {0xA0}; no trap occurs, the
wait is interrupted and the tracer detaches.  The text word at 0xA0 is the original one,
and the entry of 0xA0 comes out with `hits = 1`: `ptrace_detach` went through
`ptrace_eliminate_breakpoint`, which counts a hit. -/
theorem C3_scenario_b_marks_hit :
    (attach_session word_align (fun _ => some flat_arch) idle ⟨62, [⟨0xA0, 0, 0⟩]⟩ 42 0
        [⟨-1, 0, [], none⟩]).map (fun r => (r.1.text 42 (word_align 0xA0), r.2)) =
      some (0x1122334455667788, [⟨0xA0, 0xffffffffffffffff, 1⟩]) ∧
    [(⟨-1, 0, [], none⟩ : WaitEvent)].any is_trap = false := by
  decide

/-- C4 at the stop of pid 43 with SIGQUIT (status 0x037f, stop signal 3, not SIGTRAP, no
event bits): `status >> 8` equals PTRACE_EVENT_CLONE, and the tracee is resumed with signal
0 instead of signal 3. -/
theorem C4_sigquit_swallowed :
    (do_ptrace_run idle [⟨43, 0x037f, [], none⟩, ⟨-1, 0, [], none⟩]).map
        (fun r => r.2.1.calls) =
      some [.CONT 42 0, .CONT 43 0] ∧
    WIFSTOPPED 0x037f = true ∧ WSTOPSIG 0x037f = 3 ∧ SIGTRAP = 5 ∧
    0x037f / 256 = PTRACE_EVENT_CLONE := by
  decide

/-- C5, as amended: the debugger loop returns exactly when some answer of `waitpid` is a
failure of `waitpid` (-1), the termination of the root tracee (by exit or by signal), or
a status that is none of stopped, signaled, exited; the termination of any other pid is
none of these, and the root's termination is one whatever the descendants do. -/
theorem C5_loop_termination (ga : Nat → Nat) (arch : kc_ptrace_arch) (w : Tracer)
    (addrs : List kc_addr) (evs : List WaitEvent) :
    (ptrace_run_debugger ga arch w addrs evs).isSome =
      evs.any (fun ev => ev.r == -1 || root_terminated w.child ev || unknown_status ev) ∧
    (∀ ev : WaitEvent, ev.r ≠ w.child → ev.r ≠ -1 → WIFSTOPPED ev.status = false →
      (WIFSIGNALED ev.status || WIFEXITED ev.status) = true →
        (ev.r == -1 || root_terminated w.child ev || unknown_status ev) = false) ∧
    (∀ ev : WaitEvent, ev.r = w.child → WIFSTOPPED ev.status = false →
      (WIFSIGNALED ev.status || WIFEXITED ev.status) = true →
        root_terminated w.child ev = true) := by
  refine ⟨run_debugger_isSome ga arch w addrs evs, ?_, ?_⟩
  · intro ev h1 h2 h3 h4
    simp [root_terminated, unknown_status, h1, h2, h3, h4]
  · intro ev h1 h3 h4
    simp only [root_terminated, h1, h3, h4]
    simp

/-- C5 at a concrete run: another tracee (pid 43) exits, which does not end the loop; the root
(pid 42) is then killed by signal 9, which does. -/
theorem C5_loop_termination_witness :
    (ptrace_run_debugger word_align flat_arch idle []
      [⟨43, 0, [], none⟩, ⟨42, 9, [], none⟩]).isSome = true ∧
    (ptrace_run_debugger word_align flat_arch idle [] [⟨43, 0, [], none⟩]).isSome = false ∧
    root_terminated idle.child ⟨42, 9, [], none⟩ = true := by
  refine ⟨?_, ?_, ?_⟩
  · rw [(C5_loop_termination word_align flat_arch idle [] _).1]
    decide
  · rw [(C5_loop_termination word_align flat_arch idle [] _).1]
    decide
  · exact (C5_loop_termination word_align flat_arch idle [] []).2.2 ⟨42, 9, [], none⟩
      rfl rfl rfl

/-- C5 as stated fails: the loop also returns when `waitpid` fails, and on a status that is
none of stopped, signaled, exited (0xffff), with no termination of the root reported. -/
theorem C5_counterexample :
    (ptrace_run_debugger word_align flat_arch idle [] [⟨-1, 0, [], none⟩]).map
        (fun r => r.1) = some .PT_CODE_EXIT ∧
    root_terminated idle.child ⟨-1, 0, [], none⟩ = false ∧
    (ptrace_run_debugger word_align flat_arch idle [] [⟨43, 0xffff, [], none⟩]).map
        (fun r => r.1) = some .PT_CODE_ERROR ∧
    root_terminated idle.child ⟨43, 0xffff, [], none⟩ = false := by
  decide

/-- C6, as amended: with no adapter for the machine type, a session that got its process
ends through `error` in `ptrace_setup_breakpoints`, after the fork or the PTRACE_ATTACH
and the PTRACE_SETOPTIONS, and with no request on the tracee's text issued, the text and
the table untouched; a session whose fork or attach failed returns -1 instead. -/
theorem C6_unsupported_architecture (ga : Nat → Nat)
    (kc_ptrace_arch_get : Nat → Option kc_ptrace_arch) (w : Tracer) (k : kc)
    (h : kc_ptrace_arch_get k.e_machine = none) (pid : Int) (errno : Nat) (l : Launch)
    (evs : List WaitEvent) :
    ((ptrace_pid_run ga kc_ptrace_arch_get w k pid errno evs).isAborted = decide (errno = 0) ∧
      (ptrace_pid_run ga kc_ptrace_arch_get w k pid errno evs).ret =
        (if errno = 0 then none else some (-1)) ∧
      (ptrace_pid_run ga kc_ptrace_arch_get w k pid errno evs).state.map
          (fun s => (s.1.calls, s.2)) =
        some (w.calls ++
          (if errno ≠ 0 then [.ATTACH pid] else [.ATTACH pid, .SETOPTIONS pid]), k.addrs) ∧
      ∀ s x, (ptrace_pid_run ga kc_ptrace_arch_get w k pid errno evs).state.map
          (fun st => st.1.text s x) = some (w.text s x)) ∧
    ((ptrace_run ga kc_ptrace_arch_get w k l evs).isAborted =
        decide (0 ≤ (fork_child w l).1) ∧
      (ptrace_run ga kc_ptrace_arch_get w k l evs).ret =
        (if 0 ≤ (fork_child w l).1 then none else some (-1)) ∧
      (ptrace_run ga kc_ptrace_arch_get w k l evs).state.map (fun s => (s.1.calls, s.2)) =
        some ((fork_child w l).2.calls, k.addrs) ∧
      ((fork_child w l).1 < 0 ∨
        (fork_child w l).2.calls = w.calls ++ [.FORK l.fork_ret, .SETOPTIONS l.fork_ret]) ∧
      (fork_child w l).2.calls.filter Request.isText = w.calls.filter Request.isText ∧
      ∀ s x, (ptrace_run ga kc_ptrace_arch_get w k l evs).state.map
          (fun st => st.1.text s x) = some (w.text s x)) := by
  constructor
  · by_cases he : errno = 0
    · simp [ptrace_pid_run, setup_and_run, h, ptrace_setup_breakpoints, he, issue,
        Outcome.isAborted, Outcome.state, Outcome.ret]
    · simp [ptrace_pid_run, he, issue, Outcome.isAborted, Outcome.state, Outcome.ret]
  · have hfork : (fork_child w l).2.text = w.text ∧
        ((fork_child w l).1 < 0 ∨
          (fork_child w l).2.calls = w.calls ++ [.FORK l.fork_ret, .SETOPTIONS l.fork_ret]) ∧
        (fork_child w l).2.calls.filter Request.isText =
          w.calls.filter Request.isText := by
      unfold fork_child
      split
      · simp
      · split
        · simp [issue, Request.isText]
        · split
          · simp [Request.isText]
          · split
            · simp [Request.isText]
            · split
              · simp [Request.isText]
              · simp [issue, Request.isText]
    by_cases hf : (fork_child w l).1 < 0
    · have hf2 : ¬0 ≤ (fork_child w l).1 := by omega
      refine ⟨?_, ?_, ?_, hfork.2.1, hfork.2.2, ?_⟩
      · simp [ptrace_run, hf, Outcome.isAborted]
      · simp [ptrace_run, hf, hf2, Outcome.ret]
      · simp [ptrace_run, hf, Outcome.state]
      · simp [ptrace_run, hf, Outcome.state, hfork.1]
    · have hf2 : 0 ≤ (fork_child w l).1 := by omega
      refine ⟨?_, ?_, ?_, hfork.2.1, hfork.2.2, ?_⟩
      · simp [ptrace_run, setup_and_run, h, ptrace_setup_breakpoints, hf, hf2,
          Outcome.isAborted]
      · simp [ptrace_run, setup_and_run, h, ptrace_setup_breakpoints, hf, hf2, Outcome.ret]
      · simp [ptrace_run, setup_and_run, h, ptrace_setup_breakpoints, hf, Outcome.state]
      · simp [ptrace_run, setup_and_run, h, ptrace_setup_breakpoints, hf, Outcome.state,
          hfork.1]

/-- C6 at concrete sessions with no adapter at all: the two that got their process end
through `error`, with no request on the tracee's text issued; the attach session whose
PTRACE_ATTACH failed (errno 3) returns -1. -/
theorem C6_unsupported_architecture_witness :
    (ptrace_pid_run word_align (fun _ => none) idle ⟨62, [⟨0xA0, 0, 0⟩]⟩ 42 0 []).isAborted =
      true ∧
    (ptrace_run word_align (fun _ => none) idle ⟨62, [⟨0xA0, 0, 0⟩]⟩ ⟨true, 42, 42, 0x057f⟩
        []).isAborted = true ∧
    (fork_child idle ⟨true, 42, 42, 0x057f⟩).2.calls.filter Request.isText = [] ∧
    (ptrace_pid_run word_align (fun _ => none) idle ⟨62, [⟨0xA0, 0, 0⟩]⟩ 42 3 []).ret =
      some (-1) := by
  have h := C6_unsupported_architecture word_align (fun _ => none) idle ⟨62, [⟨0xA0, 0, 0⟩]⟩
    rfl 42 0 ⟨true, 42, 42, 0x057f⟩ []
  have h3 := C6_unsupported_architecture word_align (fun _ => none) idle
    ⟨62, [⟨0xA0, 0, 0⟩]⟩ rfl 42 3 ⟨true, 42, 42, 0x057f⟩ []
  exact ⟨h.1.1, h.2.1, h.2.2.2.2.2.1, h3.1.2.1⟩

/-- C6 as stated fails: with no adapter for the machine type the attach session has issued
PTRACE_ATTACH, and the launch session has forked, when `error` ends the program. -/
theorem C6_counterexample :
    ((ptrace_pid_run word_align (fun _ => none) idle ⟨62, [⟨0xA0, 0, 0⟩]⟩ 42 0 []).isAborted,
      (ptrace_pid_run word_align (fun _ => none) idle ⟨62, [⟨0xA0, 0, 0⟩]⟩ 42 0 []).state.map
        (fun s => s.1.calls)) = (true, some [.ATTACH 42, .SETOPTIONS 42]) ∧
    ((ptrace_run word_align (fun _ => none) idle ⟨62, [⟨0xA0, 0, 0⟩]⟩
        ⟨true, 42, 42, 0x057f⟩ []).isAborted,
      (ptrace_run word_align (fun _ => none) idle ⟨62, [⟨0xA0, 0, 0⟩]⟩
        ⟨true, 42, 42, 0x057f⟩ []).state.map (fun s => s.1.calls)) =
      (true, some [.FORK 42, .SETOPTIONS 42]) := by
  decide

/-- C7, as amended: with the active tracee in ptrace-stop, as it is at a trap,
`ptrace_eliminate_breakpoint` leaves at the entry's aligned address, in the text of the
active tracee, the word `clear_breakpoint (addr, saved_code, current word)` when the
adapter has a `clear_breakpoint`, and `saved_code` itself when it has none, and leaves
the active tracee with the adjusted registers; with the active tracee out of ptrace-stop
the requests are refused and the text word and the registers stay.  Either way it issues
PTRACE_SETREGS with the adjusted buffer before PTRACE_POKETEXT, and the entry comes out
marked hit. -/
theorem C7_eliminate_postcondition (ga : Nat → Nat) (arch : kc_ptrace_arch) (w : Tracer)
    (a : kc_addr) :
    (ptrace_eliminate_breakpoint ga arch w a).1.text (w.space w.active_child) (ga a.addr) =
      (if w.stopped w.active_child then
        (match arch.clear_breakpoint with
          | none => a.saved_code
          | some clear =>
            clear a.addr a.saved_code (w.text (w.space w.active_child) (ga a.addr)))
      else w.text (w.space w.active_child) (ga a.addr)) ∧
    (ptrace_eliminate_breakpoint ga arch w a).1.calls =
      w.calls ++ [.GETREGS w.active_child,
        .SETREGS w.active_child (arch.adjust_pc_after_breakpoint
          (if w.stopped w.active_child then w.regs w.active_child else zero_regs))] ++
      (match arch.clear_breakpoint with
        | none => []
        | some _ => [.PEEKTEXT w.active_child (ga a.addr)
            (if w.stopped w.active_child then w.text (w.space w.active_child) (ga a.addr)
              else PEEK_ERROR)]) ++
      [.POKETEXT w.active_child (ga a.addr)
        (match arch.clear_breakpoint with
          | none => a.saved_code
          | some clear =>
            clear a.addr a.saved_code
              (if w.stopped w.active_child then w.text (w.space w.active_child) (ga a.addr)
                else PEEK_ERROR))] ∧
    (ptrace_eliminate_breakpoint ga arch w a).1.regs w.active_child =
      (if w.stopped w.active_child then
        arch.adjust_pc_after_breakpoint (w.regs w.active_child)
      else w.regs w.active_child) ∧
    (ptrace_eliminate_breakpoint ga arch w a).2 = { a with hits := a.hits + 1 } ∧
    (ptrace_eliminate_breakpoint ga arch w a).2.hits ≠ 0 := by
  refine ⟨?_, ?_, ?_, ?_, ?_⟩
  · rw [eliminate_text]
    by_cases hs : w.stopped w.active_child = true
    · simp only [hs, if_true, restore_word, peek_word_fst]
      simp
    · simp [hs]
  · rw [eliminate_calls]
    simp only [restore_word, peek_word_fst, ptrace_getregs]
  · rw [eliminate_regs]
    by_cases hs : w.stopped w.active_child = true <;> simp [hs]
  · rw [eliminate_entry]
    rfl
  · rw [eliminate_entry]
    simp [kc_addr_register_hit]

/-- C7 as stated fails for an adapter with a `clear_breakpoint` that puts back only its own
byte: with breakpoints at 0xA0 and 0xA1 in one word, eliminating the entry of 0xA0 leaves
0x112233445566cc88 in the text, not its `saved_code` 0x1122334455667788. -/
theorem C7_counterexample :
    (ptrace_setup_breakpoints word_align (some merge_arch) idle
        [⟨0xA0, 0, 0⟩, ⟨0xA1, 0, 0⟩]).toOption.map
      (fun s => (s.2.head?,
        (ptrace_eliminate_breakpoint word_align merge_arch s.1
          ⟨0xA0, 0x1122334455667788, 0⟩).1.text 42 (word_align 0xA0))) =
      some (some ⟨0xA0, 0x1122334455667788, 0⟩, 0x112233445566cc88) := by
  decide

/-- C8, as amended: the debugger loop runs `ptrace_eliminate_breakpoint` at most once for
each trap it takes (one PTRACE_SETREGS each), which can be more than once for one address;
through the loop no entry changes its address and no hit counter goes down, so an entry
once hit stays hit; `ptrace_detach` runs `ptrace_eliminate_breakpoint` once on each entry
that is unhit and on no entry that is hit (one PTRACE_SETREGS per unhit entry, their
counters set to 1). -/
theorem C8_hit_transitions (ga : Nat → Nat) (arch : kc_ptrace_arch) (w : Tracer)
    (addrs : List kc_addr) (evs : List WaitEvent)
    (r : PtCode × Tracer × List kc_addr × List WaitEvent)
    (h : ptrace_run_debugger ga arch w addrs evs = some r) :
    r.2.1.calls.countP Request.isSetregs + r.2.2.2.countP is_trap ≤
      w.calls.countP Request.isSetregs + evs.countP is_trap ∧
    List.Forall₂ (fun a b => b.addr = a.addr ∧ a.hits ≤ b.hits ∧ (a.hits ≠ 0 → b.hits ≠ 0))
      addrs r.2.2.1 ∧
    (ptrace_detach ga arch r.2.1 r.2.2.1).2 =
      r.2.2.1.map (fun a => if a.hits = 0 then { a with hits := 1 } else a) ∧
    (ptrace_detach ga arch r.2.1 r.2.2.1).1.calls.countP Request.isSetregs =
      r.2.1.calls.countP Request.isSetregs + r.2.2.1.countP (fun a => a.hits == 0) := by
  refine ⟨run_debugger_fuel_setregs ga arch _ w addrs evs r h, ?_, ?_, ?_⟩
  · refine run_debugger_invariant ga arch
      (fun t2 => List.Forall₂
        (fun a b => b.addr = a.addr ∧ a.hits ≤ b.hits ∧ (a.hits ≠ 0 → b.hits ≠ 0)) addrs t2)
      ?_ w addrs evs r h ?_
    · intro t2 i a hi ht
      refine forall2_set _ addrs t2 i a _ ht hi ?_
      intro x ⟨h1, h2, _⟩
      refine ⟨h1, ?_, ?_⟩
      · simp only [kc_addr_register_hit]
        omega
      · intro _
        simp [kc_addr_register_hit]
    · have := forall2_map_self
        (fun a b : kc_addr => b.addr = a.addr ∧ a.hits ≤ b.hits ∧ (a.hits ≠ 0 → b.hits ≠ 0))
        id (fun a => ⟨rfl, le_refl _, fun x => x⟩) addrs
      rw [List.map_id] at this
      exact this
  · rw [detach_table]
    apply List.map_congr_left
    intro a _
    by_cases h0 : a.hits = 0 <;> simp [h0, kc_addr_register_hit]
  · simp [ptrace_detach, List.countP_append, detach_loop_setregs, Request.isSetregs]

/-- C8 at a concrete session: the address 0xA0 traps once and 0xA8 never; after the loop
their counters are 1 and 0, after `ptrace_detach` 1 and 1. -/
theorem C8_hit_transitions_witness :
    (ptrace_run_debugger word_align flat_arch idle [⟨0xA0, 7, 0⟩, ⟨0xA8, 7, 0⟩]
        [⟨42, 0x057f, [0xA1], none⟩, ⟨42, 0, [], none⟩]).map
      (fun r => (r.2.2.1, (ptrace_detach word_align flat_arch r.2.1 r.2.2.1).2)) =
      some ([⟨0xA0, 7, 1⟩, ⟨0xA8, 7, 0⟩], [⟨0xA0, 7, 1⟩, ⟨0xA8, 7, 1⟩]) := by
  cases hr : ptrace_run_debugger word_align flat_arch idle [⟨0xA0, 7, 0⟩, ⟨0xA8, 7, 0⟩]
      [⟨42, 0x057f, [0xA1], none⟩, ⟨42, 0, [], none⟩] with
  | none => exact absurd (congrArg Option.isSome hr) (by decide)
  | some r =>
    have h := (C8_hit_transitions word_align flat_arch idle _ _ r hr).2.2.1
    have ht : (ptrace_run_debugger word_align flat_arch idle [⟨0xA0, 7, 0⟩, ⟨0xA8, 7, 0⟩]
        [⟨42, 0x057f, [0xA1], none⟩, ⟨42, 0, [], none⟩]).map (fun r => r.2.2.1) =
        some [⟨0xA0, 7, 1⟩, ⟨0xA8, 7, 0⟩] := by decide
    rw [hr] at ht
    simp only [Option.map_some', Option.some.injEq] at ht
    simp only [Option.map_some', h, ht]
    rfl

/-- C8 as stated fails: two tracees (pids 43 and 44) trap at 0xA0 one after the other,
both before the tracer has handled the first; `ptrace_eliminate_breakpoint` runs twice on
the entry of 0xA0 (two PTRACE_SETREGS, hit counter 2). -/
theorem C8_counterexample :
    (ptrace_run_debugger word_align flat_arch idle [⟨0xA0, 0x1122334455667788, 0⟩]
        [⟨43, 0x057f, [0xA1], none⟩, ⟨44, 0x057f, [0xA1], none⟩, ⟨42, 0, [], none⟩]).map
      (fun r => (r.2.2.1, r.2.1.calls.filter Request.isSetregs)) =
      some ([⟨0xA0, 0x1122334455667788, 2⟩], [.SETREGS 43 [0xA0], .SETREGS 44 [0xA0]]) := by
  decide

end Kcov
